import Mathlib

/-!
Verification of the COVID-19 dashboard filtering-and-aggregation pipeline
(`app_03.py`): the decoder (`load_covid_data`), the six sidebar filters
producing `df_filtered`, and the aggregations feeding the charts and tables.
The pandas dataframe is embedded as a list of records; each dataframe
operation is translated to the corresponding list operation.
-/

namespace CovidDash

/-- A raw patient row as read from the CSV: integer-coded fields plus the
date-of-death string column (schema of `Covid Data.csv`). -/
structure RawRecord where
  sex : Int
  patientType : Int
  clasifficationFinal : Int
  age : Int
  dateDied : String
  icu : Int
  intubed : Int
  medicalUnit : Int
  diabetes : Int
  copd : Int
  asthma : Int
  inmsupr : Int
  hipertension : Int
  otherDisease : Int
  cardiovascular : Int
  obesity : Int
  renalChronic : Int
  tobacco : Int
deriving Repr, DecidableEq

/-- A decoded row, after `load_covid_data` has mapped the coded columns and
derived `MORTALITY` and `COMORBIDITY_COUNT`.  A mapped column whose raw code
is outside the mapping becomes `none` (pandas `NaN`). -/
structure Record where
  sex : Option String
  patientType : Option String
  classification : Option String
  age : Int
  dateDied : Option (Nat × Nat × Nat)
  mortality : Nat
  icu : Int
  intubed : Int
  medicalUnit : Int
  diabetes : Int
  copd : Int
  asthma : Int
  inmsupr : Int
  hipertension : Int
  otherDisease : Int
  cardiovascular : Int
  obesity : Int
  renalChronic : Int
  tobacco : Int
  comorbidityCount : Nat
deriving Repr, DecidableEq

/-- `sex_map = {1: 'Male', 2: 'Female', 97: 'Unknown'}`; `.map` sends any
other code to `NaN` (`none`). -/
def sexMap (c : Int) : Option String :=
  if c = 1 then some "Male"
  else if c = 2 then some "Female"
  else if c = 97 then some "Unknown"
  else none

/-- `patient_type_map = {1: 'Ambulatory', 2: 'Hospitalized', 97: 'Unknown'}`. -/
def patientTypeMap (c : Int) : Option String :=
  if c = 1 then some "Ambulatory"
  else if c = 2 then some "Hospitalized"
  else if c = 97 then some "Unknown"
  else none

/-- `classification_map`, the 7-entry lookup applied to `CLASIFFICATION_FINAL`. -/
def classificationMap (c : Int) : Option String :=
  if c = 1 then some "Suspected"
  else if c = 2 then some "Confirmed"
  else if c = 3 then some "Suspected Not COVID-19"
  else if c = 4 then some "Confirmed COVID-19 Not Related"
  else if c = 5 then some "COVID-19 Patient"
  else if c = 6 then some "Suspected COVID-19 Related"
  else if c = 7 then some "Confirmed COVID-19 Related Death"
  else none

/-- Whether `y` is a Gregorian leap year. -/
def isLeapYear (y : Nat) : Bool :=
  (y % 4 == 0 && y % 100 != 0) || y % 400 == 0

/-- Number of days of month `m` in year `y`. -/
def daysInMonth (y m : Nat) : Nat :=
  if m = 2 then (if isLeapYear y then 29 else 28)
  else if m = 4 ∨ m = 6 ∨ m = 9 ∨ m = 11 then 30
  else 31

/-- Split a character list on `'-'` (the behaviour of `split('-')` on the
string's characters). -/
def splitDash (cs : List Char) : List (List Char) :=
  match cs with
  | [] => [[]]
  | c :: rest =>
    let r := splitDash rest
    if c = '-' then [] :: r
    else
      match r with
      | [] => [[c]]
      | h :: t => (c :: h) :: t

/-- Read a non-empty all-digit character list as a number; anything else is
not a numeric field. -/
def digitsVal (cs : List Char) : Option Nat :=
  if cs ≠ [] ∧ cs.all Char.isDigit then
    some (cs.foldl (fun acc c => acc * 10 + (c.toNat - 48)) 0)
  else none

/-- `pd.to_datetime(col, errors='coerce')` on a `YYYY-MM-DD` string: a valid
calendar date parses to `some (y, m, d)`; the sentinel `"9999-99-99"` and any
other unparsable string coerce to `NaT` (`none`) — the call never raises, so
the embedding is a total function into `Option`. -/
def parseDateCoerce (s : String) : Option (Nat × Nat × Nat) :=
  match splitDash s.toList with
  | [ys, ms, ds] =>
    match digitsVal ys, digitsVal ms, digitsVal ds with
    | some y, some m, some d =>
      if 1 ≤ m ∧ m ≤ 12 ∧ 1 ≤ d ∧ d ≤ daysInMonth y m then some (y, m, d)
      else none
    | _, _, _ => none
  | _ => none

/-- The 10 comorbidity indicator columns of a raw row, in source order
(`comorbidities` list of `load_covid_data`). -/
def rawIndicators (r : RawRecord) : List Int :=
  [r.diabetes, r.copd, r.asthma, r.inmsupr, r.hipertension,
   r.otherDisease, r.cardiovascular, r.obesity, r.renalChronic, r.tobacco]

/-- One row of `load_covid_data`: decode the coded columns, parse `DATE_DIED`,
derive `MORTALITY = DATE_DIED.notna()` and
`COMORBIDITY_COUNT = (indicators == 1).sum()`. -/
def decodeRow (r : RawRecord) : Record :=
  let dd := parseDateCoerce r.dateDied
  { sex := sexMap r.sex
    patientType := patientTypeMap r.patientType
    classification := classificationMap r.clasifficationFinal
    age := r.age
    dateDied := dd
    mortality := if dd.isSome then 1 else 0
    icu := r.icu
    intubed := r.intubed
    medicalUnit := r.medicalUnit
    diabetes := r.diabetes
    copd := r.copd
    asthma := r.asthma
    inmsupr := r.inmsupr
    hipertension := r.hipertension
    otherDisease := r.otherDisease
    cardiovascular := r.cardiovascular
    obesity := r.obesity
    renalChronic := r.renalChronic
    tobacco := r.tobacco
    comorbidityCount := (rawIndicators r).countP (fun v => v == 1) }

/-- `load_covid_data` applied to the loaded table: decode every row. -/
def loadCovidData (raws : List RawRecord) : List Record :=
  raws.map decodeRow

/-- The sidebar filter widget state: multiselect selections (which may contain
the `"All"` sentinel), the age-range slider, the outcome multiselect, the
ICU checkbox and the minimum-comorbidity slider. -/
structure FilterParams where
  selectedSex : List String
  selectedPatientType : List String
  ageMin : Int
  ageMax : Int
  mortalityOptions : List String
  icuOnly : Bool
  minComorbidities : Nat
deriving Repr, DecidableEq

/-- `df['COL'].isin(sel)` for a mapped (nullable) column: `NaN` is never in
the selection. -/
def optMem (o : Option String) (sel : List String) : Bool :=
  match o with
  | some s => sel.contains s
  | none => false

/-- The sex filter is active iff `'All' not in selected_sex and selected_sex`. -/
def sexActive (p : FilterParams) : Bool :=
  !p.selectedSex.contains "All" && !p.selectedSex.isEmpty

/-- Sex filter step: `df[df['SEX'].isin(selected_sex)]` when active, else
`df.copy()`. -/
def filterSex (p : FilterParams) (rows : List Record) : List Record :=
  if sexActive p then rows.filter (fun r => optMem r.sex p.selectedSex) else rows

/-- The patient-type filter is active iff
`'All' not in selected_patient_type and selected_patient_type`. -/
def patientTypeActive (p : FilterParams) : Bool :=
  !p.selectedPatientType.contains "All" && !p.selectedPatientType.isEmpty

/-- Patient-type filter step. -/
def filterPatientType (p : FilterParams) (rows : List Record) : List Record :=
  if patientTypeActive p then
    rows.filter (fun r => optMem r.patientType p.selectedPatientType)
  else rows

/-- Age filter step: `df[(df['AGE'] >= age_min) & (df['AGE'] <= age_max)]`
(always applied). -/
def filterAge (p : FilterParams) (rows : List Record) : List Record :=
  rows.filter (fun r => p.ageMin ≤ r.age && r.age ≤ p.ageMax)

/-- The outcome filter is active iff
`'All' not in mortality_options and mortality_options`. -/
def mortalityActive (p : FilterParams) : Bool :=
  !p.mortalityOptions.contains "All" && !p.mortalityOptions.isEmpty

/-- The `mortality_filter` list built from the outcome selection:
`Deceased` contributes `1`, `Survived` contributes `0`. -/
def mortalityFilterCodes (p : FilterParams) : List Nat :=
  (if p.mortalityOptions.contains "Deceased" then [1] else []) ++
  (if p.mortalityOptions.contains "Survived" then [0] else [])

/-- Outcome filter step: `df[df['MORTALITY'].isin(mortality_filter)]` when
active. -/
def filterMortality (p : FilterParams) (rows : List Record) : List Record :=
  if mortalityActive p then
    rows.filter (fun r => (mortalityFilterCodes p).contains r.mortality)
  else rows

/-- ICU filter step: `df[df['ICU'].isin([1, 2])]` when the checkbox is set. -/
def filterICU (p : FilterParams) (rows : List Record) : List Record :=
  if p.icuOnly then rows.filter (fun r => r.icu == 1 || r.icu == 2) else rows

/-- Comorbidity filter step:
`df[df['COMORBIDITY_COUNT'] >= min_comorbidities]` (always applied). -/
def filterComorbidity (p : FilterParams) (rows : List Record) : List Record :=
  rows.filter (fun r => p.minComorbidities ≤ r.comorbidityCount)

/-- `df_filtered`: the six filters applied in source order
(gender, patient type, age, outcome, ICU, comorbidity). -/
def applyFilters (rows : List Record) (p : FilterParams) : List Record :=
  filterComorbidity p
    (filterICU p
      (filterMortality p
        (filterAge p
          (filterPatientType p
            (filterSex p rows)))))

/-- The gender filter predicate: trivially true when the filter is
unrestricted, else `SEX.isin(selected_sex)`. -/
def sexPred (p : FilterParams) (r : Record) : Bool :=
  if sexActive p then optMem r.sex p.selectedSex else true

/-- The patient-type filter predicate. -/
def patientTypePred (p : FilterParams) (r : Record) : Bool :=
  if patientTypeActive p then optMem r.patientType p.selectedPatientType else true

/-- The age-range filter predicate (inclusive on both ends). -/
def agePred (p : FilterParams) (r : Record) : Bool :=
  p.ageMin ≤ r.age && r.age ≤ p.ageMax

/-- The outcome filter predicate. -/
def outcomePred (p : FilterParams) (r : Record) : Bool :=
  if mortalityActive p then (mortalityFilterCodes p).contains r.mortality else true

/-- The ICU-only filter predicate: `ICU.isin([1, 2])` when the checkbox is
set. -/
def icuPred (p : FilterParams) (r : Record) : Bool :=
  if p.icuOnly then r.icu == 1 || r.icu == 2 else true

/-- The minimum-comorbidity filter predicate. -/
def comorbidityPred (p : FilterParams) (r : Record) : Bool :=
  p.minComorbidities ≤ r.comorbidityCount

/-- The default widget state: both multiselects at `['All']`, sliders at
their full/zero defaults, checkbox off. -/
def defaultParams : FilterParams :=
  { selectedSex := ["All"]
    selectedPatientType := ["All"]
    ageMin := 0
    ageMax := 130
    mortalityOptions := ["All"]
    icuOnly := false
    minComorbidities := 0 }

/-- `df['MORTALITY'].sum()` over a view. -/
def sumMortality (rows : List Record) : Nat :=
  (rows.map (fun r => r.mortality)).sum

/-- `deaths / total * 100`, in exact rationals. -/
def rateOf (deaths total : Nat) : ℚ :=
  (deaths : ℚ) / (total : ℚ) * 100

/-- KPI mortality rate:
`df_filtered['MORTALITY'].sum() / len(df_filtered) * 100 if len(df_filtered) > 0 else 0`. -/
def kpiMortalityRate (rows : List Record) : ℚ :=
  if 0 < rows.length then rateOf (sumMortality rows) rows.length else 0

/-- One output row of a grouped `(Deaths, Total, Mortality_Rate)` summary. -/
structure GroupStat (κ : Type) where
  key : κ
  deaths : Nat
  total : Nat
  rate : ℚ
deriving Repr, DecidableEq

/-- `pd.cut(age, bins=[0,18,30,40,50,60,70,80,130], right=False)`: each bin
is closed on the left and open on the right; a value in no bin (age < 0 or
age ≥ 130) gets `NaN` (`none`).  Bands are indexed 0-7 in bin order. -/
def ageBand (a : Int) : Option Nat :=
  if 0 ≤ a ∧ a < 18 then some 0
  else if 18 ≤ a ∧ a < 30 then some 1
  else if 30 ≤ a ∧ a < 40 then some 2
  else if 40 ≤ a ∧ a < 50 then some 3
  else if 50 ≤ a ∧ a < 60 then some 4
  else if 60 ≤ a ∧ a < 70 then some 5
  else if 70 ≤ a ∧ a < 80 then some 6
  else if 80 ≤ a ∧ a < 130 then some 7
  else none

/-- `age_mortality`: group `df_filtered` by `AGE_GROUP` (categorical, so the
groups come in band order and, with `observed=True` and `NaN` keys dropped,
only non-empty bands appear), and per group take
`(Deaths, Total, Deaths/Total*100)`. -/
def ageMortality (rows : List Record) : List (GroupStat Nat) :=
  (List.range 8).filterMap (fun i =>
    let g := rows.filter (fun r => ageBand r.age == some i)
    if g.length = 0 then none
    else some { key := i, deaths := sumMortality g, total := g.length,
                rate := rateOf (sumMortality g) g.length })

/-- `sorted(...)` of pandas `groupby` keys / option lists: ascending string
order. -/
def sortStrings (l : List String) : List String :=
  List.insertionSort (fun a b => a ≤ b) l

/-- `gender_stats`: `df_filtered.groupby('SEX')` (keys are the distinct
non-null labels, ascending; `NaN` rows excluded) with
`(Deaths, Total, Deaths/Total*100)` per group. -/
def genderStats (rows : List Record) : List (GroupStat String) :=
  (sortStrings ((rows.filterMap (fun r => r.sex)).dedup)).map
    (fun l =>
      let g := rows.filter (fun r => r.sex == some l)
      { key := l, deaths := sumMortality g, total := g.length,
        rate := rateOf (sumMortality g) g.length })

/-- `comorbidity_mortality`: `df_filtered.groupby('COMORBIDITY_COUNT')`
(distinct counts, ascending) with `(Deaths, Total, Deaths/Total*100)` per
group. -/
def comorbidityCurve (rows : List Record) : List (GroupStat Nat) :=
  (List.insertionSort (fun a b => a ≤ b) ((rows.map (fun r => r.comorbidityCount)).dedup)).map
    (fun c =>
      let g := rows.filter (fun r => r.comorbidityCount == c)
      { key := c, deaths := sumMortality g, total := g.length,
        rate := rateOf (sumMortality g) g.length })

/-- `Series.value_counts()` on a nullable label column: one `(label, count)`
pair per distinct non-null value, sorted descending by count; `NaN` is
dropped. -/
def valueCounts (vals : List String) : List (String × Nat) :=
  List.insertionSort (fun a b => b.2 ≤ a.2)
    (vals.dedup.map (fun l => (l, vals.count l)))

/-- `patient_type_dist = df_filtered['PATIENT_TYPE'].value_counts()`. -/
def patientTypeDist (rows : List Record) : List (String × Nat) :=
  valueCounts (rows.filterMap (fun r => r.patientType))

/-- `classification_dist = df_filtered['CLASSIFICATION'].value_counts()`. -/
def classificationDist (rows : List Record) : List (String × Nat) :=
  valueCounts (rows.filterMap (fun r => r.classification))

/-- `gender_data = df_filtered['SEX'].value_counts()` (summary table). -/
def genderData (rows : List Record) : List (String × Nat) :=
  valueCounts (rows.filterMap (fun r => r.sex))

/-- `critical_care` counts: rows with `INTUBED.isin([1,2])`, with
`ICU.isin([1,2])`, and with both. -/
def criticalCare (rows : List Record) : Nat × Nat × Nat :=
  ((rows.filter (fun r => r.intubed == 1 || r.intubed == 2)).length,
   (rows.filter (fun r => r.icu == 1 || r.icu == 2)).length,
   (rows.filter (fun r =>
      (r.intubed == 1 || r.intubed == 2) && (r.icu == 1 || r.icu == 2))).length)

/-- `sex_options = ['All'] + sorted(df['SEX'].dropna().unique().tolist())`. -/
def sexOptions (rows : List Record) : List String :=
  "All" :: sortStrings ((rows.filterMap (fun r => r.sex)).dedup)

/-- One row of the `comorbidity_analysis` table. -/
structure CondStat where
  condition : String
  prevalence : ℚ
  withMortality : ℚ
  withoutMortality : ℚ
  excessRisk : ℚ
deriving Repr, DecidableEq

/-- `comorbidities_list` together with the column accessor each name stands
for; the display name is `comorbidity.replace('_', ' ').title()`. -/
def conditionList : List (String × (Record → Int)) :=
  [("Diabetes", fun r => r.diabetes),
   ("Copd", fun r => r.copd),
   ("Asthma", fun r => r.asthma),
   ("Inmsupr", fun r => r.inmsupr),
   ("Hipertension", fun r => r.hipertension),
   ("Other Disease", fun r => r.otherDisease),
   ("Cardiovascular", fun r => r.cardiovascular),
   ("Obesity", fun r => r.obesity),
   ("Renal Chronic", fun r => r.renalChronic),
   ("Tobacco", fun r => r.tobacco)]

/-- One iteration of the `for comorbidity in comorbidities_list` loop: split
the view on `col == 1` / `col != 1`; if both splits are non-empty produce the
analysis row, else append nothing. -/
def condStat (rows : List Record) (nf : String × (Record → Int)) : Option CondStat :=
  let wc := rows.filter (fun r => nf.2 r == 1)
  let woc := rows.filter (fun r => nf.2 r != 1)
  if 0 < wc.length ∧ 0 < woc.length then
    some { condition := nf.1
           prevalence := (wc.length : ℚ) / (rows.length : ℚ) * 100
           withMortality := rateOf (sumMortality wc) wc.length
           withoutMortality := rateOf (sumMortality woc) woc.length
           excessRisk :=
             rateOf (sumMortality wc) wc.length - rateOf (sumMortality woc) woc.length }
  else none

/-- The `comorbidity_analysis` list built by the loop, in source condition
order. -/
def comorbidityAnalysis (rows : List Record) : List CondStat :=
  conditionList.filterMap (condStat rows)

/-- Descending-by-excess-risk order used by
`sort_values('Excess Risk (%)', ascending=False)`. -/
def excessGE (a b : CondStat) : Prop :=
  b.excessRisk ≤ a.excessRisk

instance : DecidableRel excessGE :=
  fun a b => inferInstanceAs (Decidable (b.excessRisk ≤ a.excessRisk))

instance : IsTotal CondStat excessGE :=
  ⟨fun a b => le_total b.excessRisk a.excessRisk⟩

instance : IsTrans CondStat excessGE :=
  ⟨fun _ _ _ hab hbc => le_trans hbc hab⟩

/-- `comorbidity_df = pd.DataFrame(comorbidity_analysis).sort_values('Excess Risk (%)', ascending=False)`:
the sorted table, on the executions where the sort succeeds. -/
def comorbidityDF (rows : List Record) : List CondStat :=
  List.insertionSort excessGE (comorbidityAnalysis rows)

/-- The same line as the dashboard actually executes it:
`pd.DataFrame(lst)` built from an EMPTY list has no columns at all, so
`sort_values` on the excess-risk column then raises `KeyError`; on a
non-empty list the sort succeeds.  Embedded as `Except`. -/
def comorbidityDFRun (rows : List Record) : Except String (List CondStat) :=
  if comorbidityAnalysis rows = [] then Except.error "KeyError"
  else Except.ok (List.insertionSort excessGE (comorbidityAnalysis rows))

/-- The mutable dataframe `df_filtered` as the visualisation code sees it:
its rows, plus the `AGE_GROUP` column once line 347 has assigned it. -/
structure Frame where
  rows : List Record
  ageGroupCol : Option (List (Option Nat))
deriving Repr, DecidableEq

/-- The age-band visualisation block (lines 345-353): it first assigns
`df_filtered['AGE_GROUP'] = pd.cut(...)` — mutating the view — and then
computes `age_mortality` from it. -/
def ageMortalityStep (df : Frame) : Frame × List (GroupStat Nat) :=
  ({ rows := df.rows, ageGroupCol := some (df.rows.map (fun r => ageBand r.age)) },
   ageMortality df.rows)

/-- The gender-stats block: reads the view, leaves it unchanged. -/
def genderStatsStep (df : Frame) : Frame × List (GroupStat String) :=
  (df, genderStats df.rows)

/-- The comorbidity-curve block: reads the view, leaves it unchanged. -/
def comorbidityCurveStep (df : Frame) : Frame × List (GroupStat Nat) :=
  (df, comorbidityCurve df.rows)

/-- The patient-type-distribution block: reads the view, leaves it unchanged. -/
def patientTypeDistStep (df : Frame) : Frame × List (String × Nat) :=
  (df, patientTypeDist df.rows)

/-- The critical-care block: reads the view, leaves it unchanged. -/
def criticalCareStep (df : Frame) : Frame × (Nat × Nat × Nat) :=
  (df, criticalCare df.rows)

/-- The classification-distribution block: reads the view, leaves it
unchanged. -/
def classificationDistStep (df : Frame) : Frame × List (String × Nat) :=
  (df, classificationDist df.rows)

/-- The excess-risk block: reads the view, leaves it unchanged. -/
def comorbidityDFStep (df : Frame) : Frame × List CondStat :=
  (df, comorbidityDF df.rows)

/-- Sample raw row: alive, all 10 comorbidity indicators at the absent
code 2 (Scenario D of the spec). -/
def rawAllAbsent : RawRecord :=
  { sex := 1, patientType := 1, clasifficationFinal := 1, age := 30,
    dateDied := "9999-99-99", icu := 2, intubed := 2, medicalUnit := 1,
    diabetes := 2, copd := 2, asthma := 2, inmsupr := 2, hipertension := 2,
    otherDisease := 2, cardiovascular := 2, obesity := 2, renalChronic := 2,
    tobacco := 2 }

/-- Sample raw row with age exactly 130. -/
def rawAge130 : RawRecord :=
  { rawAllAbsent with age := 130 }

/-- Sample raw row with age 131 (outside the slider range). -/
def rawAge131 : RawRecord :=
  { rawAllAbsent with age := 131 }

/-- Sample raw row with an in-range age. -/
def rawAge25 : RawRecord :=
  { rawAllAbsent with age := 25 }

/-- Sample raw row whose classification code 8 is outside the 7-entry
lookup. -/
def rawUnmappedClass : RawRecord :=
  { rawAllAbsent with clasifficationFinal := 8 }

/-- Sample raw row whose sex code 5 is outside the sex mapping. -/
def rawUnmappedSex : RawRecord :=
  { rawAllAbsent with sex := 5 }

/-- Sample raw row of a deceased diabetic patient. -/
def rawDeadDiabetic : RawRecord :=
  { rawAllAbsent with sex := 2, dateDied := "2021-03-01", diabetes := 1 }

/-- A two-row sample view: one deceased diabetic, one survivor without
conditions. -/
def sampleRows : List Record :=
  [decodeRow rawDeadDiabetic, decodeRow rawAllAbsent]

/-- A sample dataframe before the visualisation section runs. -/
def sampleFrame : Frame :=
  { rows := [decodeRow rawAge25], ageGroupCol := none }

lemma filterSex_sublist (p : FilterParams) (rows : List Record) :
    List.Sublist (filterSex p rows) rows := by
  unfold filterSex
  split
  · exact List.filter_sublist rows
  · exact List.Sublist.refl rows

lemma filterPatientType_sublist (p : FilterParams) (rows : List Record) :
    List.Sublist (filterPatientType p rows) rows := by
  unfold filterPatientType
  split
  · exact List.filter_sublist rows
  · exact List.Sublist.refl rows

lemma filterAge_sublist (p : FilterParams) (rows : List Record) :
    List.Sublist (filterAge p rows) rows :=
  List.filter_sublist rows

lemma filterMortality_sublist (p : FilterParams) (rows : List Record) :
    List.Sublist (filterMortality p rows) rows := by
  unfold filterMortality
  split
  · exact List.filter_sublist rows
  · exact List.Sublist.refl rows

lemma filterICU_sublist (p : FilterParams) (rows : List Record) :
    List.Sublist (filterICU p rows) rows := by
  unfold filterICU
  split
  · exact List.filter_sublist rows
  · exact List.Sublist.refl rows

lemma filterComorbidity_sublist (p : FilterParams) (rows : List Record) :
    List.Sublist (filterComorbidity p rows) rows :=
  List.filter_sublist rows

lemma applyFilters_sublist (rows : List Record) (p : FilterParams) :
    List.Sublist (applyFilters rows p) rows :=
  ((((((filterComorbidity_sublist p _).trans
    (filterICU_sublist p _)).trans
    (filterMortality_sublist p _)).trans
    (filterAge_sublist p _)).trans
    (filterPatientType_sublist p _)).trans
    (filterSex_sublist p rows))

lemma mem_filterSex {p : FilterParams} {rows : List Record} {r : Record}
    (h : r ∈ filterSex p rows) : r ∈ rows ∧ sexPred p r = true := by
  unfold filterSex at h
  unfold sexPred
  by_cases ha : sexActive p = true
  · simp only [ha, if_true] at h ⊢
    exact ⟨(List.mem_filter.mp h).1, (List.mem_filter.mp h).2⟩
  · simp only [Bool.not_eq_true] at ha
    simp only [ha, Bool.false_eq_true, if_false] at h ⊢
    exact ⟨h, by trivial⟩

lemma mem_filterPatientType {p : FilterParams} {rows : List Record} {r : Record}
    (h : r ∈ filterPatientType p rows) : r ∈ rows ∧ patientTypePred p r = true := by
  unfold filterPatientType at h
  unfold patientTypePred
  by_cases ha : patientTypeActive p = true
  · simp only [ha, if_true] at h ⊢
    exact ⟨(List.mem_filter.mp h).1, (List.mem_filter.mp h).2⟩
  · simp only [Bool.not_eq_true] at ha
    simp only [ha, Bool.false_eq_true, if_false] at h ⊢
    exact ⟨h, by trivial⟩

lemma mem_filterAge {p : FilterParams} {rows : List Record} {r : Record}
    (h : r ∈ filterAge p rows) : r ∈ rows ∧ agePred p r = true := by
  unfold filterAge at h
  exact ⟨(List.mem_filter.mp h).1, (List.mem_filter.mp h).2⟩

lemma mem_filterMortality {p : FilterParams} {rows : List Record} {r : Record}
    (h : r ∈ filterMortality p rows) : r ∈ rows ∧ outcomePred p r = true := by
  unfold filterMortality at h
  unfold outcomePred
  by_cases ha : mortalityActive p = true
  · simp only [ha, if_true] at h ⊢
    exact ⟨(List.mem_filter.mp h).1, (List.mem_filter.mp h).2⟩
  · simp only [Bool.not_eq_true] at ha
    simp only [ha, Bool.false_eq_true, if_false] at h ⊢
    exact ⟨h, by trivial⟩

lemma mem_filterICU {p : FilterParams} {rows : List Record} {r : Record}
    (h : r ∈ filterICU p rows) : r ∈ rows ∧ icuPred p r = true := by
  unfold filterICU at h
  unfold icuPred
  by_cases ha : p.icuOnly = true
  · simp only [ha, if_true] at h ⊢
    exact ⟨(List.mem_filter.mp h).1, (List.mem_filter.mp h).2⟩
  · simp only [Bool.not_eq_true] at ha
    simp only [ha, Bool.false_eq_true, if_false] at h ⊢
    exact ⟨h, by trivial⟩

lemma mem_filterComorbidity {p : FilterParams} {rows : List Record} {r : Record}
    (h : r ∈ filterComorbidity p rows) : r ∈ rows ∧ comorbidityPred p r = true := by
  unfold filterComorbidity at h
  exact ⟨(List.mem_filter.mp h).1, (List.mem_filter.mp h).2⟩

/-- C1: on every dataset and every filter-widget state, `df_filtered` is no
longer than the dataset, is a subsequence of it (original row order), and
each of its rows satisfies all six filter predicates. -/
theorem applyFilters_spec (rows : List Record) (p : FilterParams) :
    (applyFilters rows p).length ≤ rows.length ∧
    List.Sublist (applyFilters rows p) rows ∧
    ∀ r ∈ applyFilters rows p,
      sexPred p r = true ∧ patientTypePred p r = true ∧ agePred p r = true ∧
      outcomePred p r = true ∧ icuPred p r = true ∧ comorbidityPred p r = true := by
  refine ⟨(applyFilters_sublist rows p).length_le, applyFilters_sublist rows p, ?_⟩
  intro r hr
  unfold applyFilters at hr
  have h6 := mem_filterComorbidity hr
  have h5 := mem_filterICU h6.1
  have h4 := mem_filterMortality h5.1
  have h3 := mem_filterAge h4.1
  have h2 := mem_filterPatientType h3.1
  have h1 := mem_filterSex h2.1
  exact ⟨h1.2, h2.2, h3.2, h4.2, h5.2, h6.2⟩

/-- C2: the derived `COMORBIDITY_COUNT` of every decoded row equals the
number of the 10 fixed indicator columns whose value is the present code 1
(any other value, unknown included, counts as absent), lies in `[0, 10]`,
and a row with all 10 indicators at the absent code 2 gets count 0. -/
theorem comorbidityCount_spec :
    (∀ raw : RawRecord,
      (decodeRow raw).comorbidityCount =
        (if raw.diabetes = 1 then 1 else 0) + (if raw.copd = 1 then 1 else 0) +
        (if raw.asthma = 1 then 1 else 0) + (if raw.inmsupr = 1 then 1 else 0) +
        (if raw.hipertension = 1 then 1 else 0) + (if raw.otherDisease = 1 then 1 else 0) +
        (if raw.cardiovascular = 1 then 1 else 0) + (if raw.obesity = 1 then 1 else 0) +
        (if raw.renalChronic = 1 then 1 else 0) + (if raw.tobacco = 1 then 1 else 0) ∧
      (decodeRow raw).comorbidityCount ≤ 10) ∧
    rawIndicators rawAllAbsent = [2, 2, 2, 2, 2, 2, 2, 2, 2, 2] ∧
    (decodeRow rawAllAbsent).comorbidityCount = 0 := by
  refine ⟨fun raw => ⟨?_, ?_⟩, by decide, by decide⟩
  · simp only [decodeRow, rawIndicators, List.countP_cons, List.countP_nil, beq_iff_eq]
    omega
  · have hle : ((rawIndicators raw).countP (fun v => v == 1)) ≤ (rawIndicators raw).length :=
      List.countP_le_length (fun v => v == 1)
    simpa [decodeRow, rawIndicators] using hle

/-- C6: `pd.to_datetime(DATE_DIED, errors='coerce')` turns the sentinel
`"9999-99-99"` (and any unparsable string) into a null date without raising
(the embedded parse is a total function into `Option`), and the derived
`MORTALITY` flag is 1 exactly when the parsed date is non-null. -/
theorem dateDied_mortality_spec :
    parseDateCoerce "9999-99-99" = none ∧
    parseDateCoerce "2021-03-01" = some (2021, 3, 1) ∧
    ∀ raw : RawRecord,
      (decodeRow raw).dateDied = parseDateCoerce raw.dateDied ∧
      ((decodeRow raw).mortality = 1 ↔ ((decodeRow raw).dateDied).isSome = true) ∧
      ((decodeRow raw).mortality = 0 ↔ (decodeRow raw).dateDied = none) := by
  refine ⟨by decide, by decide, fun raw => ?_⟩
  simp only [decodeRow]
  cases h : parseDateCoerce raw.dateDied <;> simp [h]

/-- C7 counterexample: on a dataset holding one row of age 131, the default
filter state (age range `(0, 130)`, everything else unrestricted) does not
return the whole dataset — the age filter drops the out-of-range row. -/
theorem defaultFilters_cex :
    (decodeRow rawAge131).age = 131 ∧
    applyFilters [decodeRow rawAge131] defaultParams = [] := by
  exact ⟨by decide, by decide⟩

/-- C7 amended: the default filter state reduces exactly to the age-range
filter `0 ≤ AGE ≤ 130`; it is the identity on datasets all of whose rows
have age in `[0, 130]` (but not on rows with out-of-range age). -/
theorem defaultFilters_spec (rows : List Record) :
    applyFilters rows defaultParams = filterAge defaultParams rows ∧
    ((∀ r ∈ rows, 0 ≤ r.age ∧ r.age ≤ 130) → applyFilters rows defaultParams = rows) := by
  have h1 : filterSex defaultParams rows = rows := by
    simp [filterSex, sexActive, defaultParams]
  have h2 : filterPatientType defaultParams rows = rows := by
    simp [filterPatientType, patientTypeActive, defaultParams]
  have h4 : ∀ l : List Record, filterMortality defaultParams l = l := fun l => by
    simp [filterMortality, mortalityActive, defaultParams]
  have h5 : ∀ l : List Record, filterICU defaultParams l = l := fun l => by
    simp [filterICU, defaultParams]
  have h6 : ∀ l : List Record, filterComorbidity defaultParams l = l := fun l => by
    simp [filterComorbidity, defaultParams]
  have hmain : applyFilters rows defaultParams = filterAge defaultParams rows := by
    unfold applyFilters
    rw [h1, h2, h4, h5, h6]
  refine ⟨hmain, fun hage => ?_⟩
  rw [hmain]
  apply List.filter_eq_self.mpr
  intro r hr
  simp only [defaultParams, Bool.and_eq_true, decide_eq_true_eq]
  exact ⟨(hage r hr).1, (hage r hr).2⟩

/-- C7 witness: on an in-range one-row dataset the default filter state is
the identity. -/
theorem defaultFilters_witness :
    (∀ r ∈ [decodeRow rawAge25], 0 ≤ r.age ∧ r.age ≤ 130) ∧
    applyFilters [decodeRow rawAge25] defaultParams = [decodeRow rawAge25] :=
  ⟨by decide, (defaultFilters_spec [decodeRow rawAge25]).2 (by decide)⟩

lemma ageBand_iff (a : Int) (i : Nat) :
    ageBand a = some i ↔
      ((i = 0 ∧ 0 ≤ a ∧ a < 18) ∨ (i = 1 ∧ 18 ≤ a ∧ a < 30) ∨
       (i = 2 ∧ 30 ≤ a ∧ a < 40) ∨ (i = 3 ∧ 40 ≤ a ∧ a < 50) ∨
       (i = 4 ∧ 50 ≤ a ∧ a < 60) ∨ (i = 5 ∧ 60 ≤ a ∧ a < 70) ∨
       (i = 6 ∧ 70 ≤ a ∧ a < 80) ∨ (i = 7 ∧ 80 ≤ a ∧ a < 130)) := by
  unfold ageBand
  split_ifs <;> simp only [Option.some.injEq, reduceCtorEq, false_iff, true_iff] <;> omega

lemma mem_ageMortality {rows : List Record} {g : GroupStat Nat}
    (hg : g ∈ ageMortality rows) :
    g.deaths = sumMortality (rows.filter (fun r => ageBand r.age == some g.key)) ∧
    g.total = (rows.filter (fun r => ageBand r.age == some g.key)).length ∧
    0 < g.total ∧ g.rate = rateOf g.deaths g.total := by
  unfold ageMortality at hg
  obtain ⟨i, _, heq⟩ := List.mem_filterMap.mp hg
  dsimp only at heq
  by_cases hz : (rows.filter (fun r => ageBand r.age == some i)).length = 0
  · rw [if_pos hz] at heq
    exact absurd heq (by simp)
  · rw [if_neg hz] at heq
    cases Option.some.inj heq
    exact ⟨rfl, rfl, Nat.pos_of_ne_zero hz, rfl⟩

lemma ageMortality_band_present {rows : List Record} {i : Nat} (hi : i < 8)
    (hpos : 0 < (rows.filter (fun r => ageBand r.age == some i)).length) :
    ∃ g ∈ ageMortality rows, g.key = i := by
  refine ⟨{ key := i,
            deaths := sumMortality (rows.filter (fun r => ageBand r.age == some i)),
            total := (rows.filter (fun r => ageBand r.age == some i)).length,
            rate := rateOf (sumMortality (rows.filter (fun r => ageBand r.age == some i)))
              (rows.filter (fun r => ageBand r.age == some i)).length }, ?_, rfl⟩
  apply List.mem_filterMap.mpr
  refine ⟨i, List.mem_range.mpr hi, ?_⟩
  dsimp only
  rw [if_neg (Nat.pos_iff_ne_zero.mp hpos)]

/-- C3 counterexample: age 130 falls in no band (`pd.cut` with `right=False`
makes every bin, the last included, right-open), so a dataset holding one
row of age 130 produces an empty age-band aggregation — the claim that the
final band includes age 130 fails on the code. -/
theorem ageMortality_cex :
    (decodeRow rawAge130).age = 130 ∧
    ageBand 130 = none ∧
    ageMortality [decodeRow rawAge130] = [] := by
  exact ⟨by decide, by decide, by decide⟩

/-- C3 amended: ages are bucketed into the 8 fixed bands with boundaries
`[0,18,30,40,50,60,70,80,130)`, every band lower-inclusive and
upper-exclusive — the final band included, so age 130 falls in no band; for
each non-empty band the aggregation yields death count, total count and
mortality rate `deaths/total*100` (with total positive, so no division by
zero); empty bands are omitted. -/
theorem ageMortality_spec :
    (∀ (a : Int) (i : Nat), ageBand a = some i ↔
      ((i = 0 ∧ 0 ≤ a ∧ a < 18) ∨ (i = 1 ∧ 18 ≤ a ∧ a < 30) ∨
       (i = 2 ∧ 30 ≤ a ∧ a < 40) ∨ (i = 3 ∧ 40 ≤ a ∧ a < 50) ∨
       (i = 4 ∧ 50 ≤ a ∧ a < 60) ∨ (i = 5 ∧ 60 ≤ a ∧ a < 70) ∨
       (i = 6 ∧ 70 ≤ a ∧ a < 80) ∨ (i = 7 ∧ 80 ≤ a ∧ a < 130))) ∧
    ageBand 130 = none ∧
    (∀ rows : List Record, ∀ g ∈ ageMortality rows,
      g.deaths = sumMortality (rows.filter (fun r => ageBand r.age == some g.key)) ∧
      g.total = (rows.filter (fun r => ageBand r.age == some g.key)).length ∧
      0 < g.total ∧ g.rate = rateOf g.deaths g.total) ∧
    (∀ (rows : List Record) (i : Nat), i < 8 →
      0 < (rows.filter (fun r => ageBand r.age == some i)).length →
      ∃ g ∈ ageMortality rows, g.key = i) :=
  ⟨ageBand_iff, by decide, fun _ _ hg => mem_ageMortality hg,
   fun _ _ hi hpos => ageMortality_band_present hi hpos⟩

/-- C3 witness: a 25-year-old row lands in band 1 (`18-29`) and that band
appears in the aggregation output. -/
theorem ageMortality_witness :
    0 < ([decodeRow rawAge25].filter (fun r => ageBand r.age == some 1)).length ∧
    ∃ g ∈ ageMortality [decodeRow rawAge25], g.key = 1 :=
  ⟨by decide, ageMortality_spec.2.2.2 [decodeRow rawAge25] 1 (by decide) (by decide)⟩

lemma sumMortality_le_length (rows : List Record) (h : ∀ r ∈ rows, r.mortality ≤ 1) :
    sumMortality rows ≤ rows.length := by
  unfold sumMortality
  have hb : ∀ x ∈ rows.map (fun r => r.mortality), x ≤ 1 := by
    intro x hx
    obtain ⟨r, hr, rfl⟩ := List.mem_map.mp hx
    exact h r hr
  have := List.sum_le_card_nsmul (rows.map (fun r => r.mortality)) 1 hb
  simpa using this

lemma rateOf_nonneg (d t : Nat) : 0 ≤ rateOf d t := by
  unfold rateOf
  positivity

lemma rateOf_le_100 (d t : Nat) (h : d ≤ t) : rateOf d t ≤ 100 := by
  unfold rateOf
  rcases Nat.eq_zero_or_pos t with ht | ht
  · subst ht
    simp at h
    subst h
    norm_num
  · have h1 : (d : ℚ) / t ≤ 1 := by
      rw [div_le_one (by exact_mod_cast ht)]
      exact_mod_cast h
    calc (d : ℚ) / t * 100 ≤ 1 * 100 :=
          mul_le_mul_of_nonneg_right h1 (by norm_num)
      _ = 100 := one_mul 100

lemma subgroup_rate_bounds (rows sub : List Record)
    (h : ∀ r ∈ rows, r.mortality ≤ 1) (hsub : ∀ r ∈ sub, r ∈ rows) :
    0 ≤ rateOf (sumMortality sub) sub.length ∧
    rateOf (sumMortality sub) sub.length ≤ 100 :=
  ⟨rateOf_nonneg _ _,
   rateOf_le_100 _ _ (sumMortality_le_length sub (fun r hr => h r (hsub r hr)))⟩

lemma mem_genderStats {rows : List Record} {g : GroupStat String}
    (hg : g ∈ genderStats rows) :
    g.deaths = sumMortality (rows.filter (fun r => r.sex == some g.key)) ∧
    g.total = (rows.filter (fun r => r.sex == some g.key)).length ∧
    g.rate = rateOf g.deaths g.total := by
  unfold genderStats at hg
  obtain ⟨l, _, rfl⟩ := List.mem_map.mp hg
  exact ⟨rfl, rfl, rfl⟩

lemma mem_comorbidityCurve {rows : List Record} {g : GroupStat Nat}
    (hg : g ∈ comorbidityCurve rows) :
    g.deaths = sumMortality (rows.filter (fun r => r.comorbidityCount == g.key)) ∧
    g.total = (rows.filter (fun r => r.comorbidityCount == g.key)).length ∧
    g.rate = rateOf g.deaths g.total := by
  unfold comorbidityCurve at hg
  obtain ⟨c, _, rfl⟩ := List.mem_map.mp hg
  exact ⟨rfl, rfl, rfl⟩

/-- Supporting result for the rate claims: on any view whose rows carry a
0/1 mortality flag (as every decoded row does), the KPI mortality rate and
every per-age-band, per-gender and per-comorbidity-count rate lie in
`[0, 100]`; the KPI rate is defined as 0 when the view is empty instead of
dividing by zero; and each grouped aggregation maps the empty view to an
empty (or zero) result. -/
theorem mortality_rate_bounds_spec (rows : List Record)
    (h : ∀ r ∈ rows, r.mortality ≤ 1) :
    (0 ≤ kpiMortalityRate rows ∧ kpiMortalityRate rows ≤ 100) ∧
    (rows.length = 0 → kpiMortalityRate rows = 0) ∧
    (∀ g ∈ ageMortality rows, 0 < g.total ∧ 0 ≤ g.rate ∧ g.rate ≤ 100) ∧
    (∀ g ∈ genderStats rows, 0 ≤ g.rate ∧ g.rate ≤ 100) ∧
    (∀ g ∈ comorbidityCurve rows, 0 ≤ g.rate ∧ g.rate ≤ 100) ∧
    (ageMortality [] = [] ∧ genderStats [] = [] ∧ comorbidityCurve [] = [] ∧
      patientTypeDist [] = [] ∧ criticalCare [] = (0, 0, 0) ∧
      classificationDist [] = [] ∧ genderData [] = [] ∧
      comorbidityDF [] = [] ∧ kpiMortalityRate [] = 0) := by
  refine ⟨?_, ?_, ?_, ?_, ?_, by decide, by decide, by decide, by decide,
    by decide, by decide, by decide, by decide, ?_⟩
  · unfold kpiMortalityRate
    split_ifs with hp
    · exact ⟨rateOf_nonneg _ _, rateOf_le_100 _ _ (sumMortality_le_length rows h)⟩
    · norm_num
  · intro hz
    unfold kpiMortalityRate
    rw [if_neg (by omega)]
  · intro g hg
    obtain ⟨hd, ht, hpos, hr⟩ := mem_ageMortality hg
    have hb := subgroup_rate_bounds rows
      (rows.filter (fun r => ageBand r.age == some g.key)) h
      (fun r hr => (List.mem_filter.mp hr).1)
    rw [hr, hd, ht]
    exact ⟨ht ▸ hpos, hb.1, hb.2⟩
  · intro g hg
    obtain ⟨hd, ht, hr⟩ := mem_genderStats hg
    have hb := subgroup_rate_bounds rows
      (rows.filter (fun r => r.sex == some g.key)) h
      (fun r hr => (List.mem_filter.mp hr).1)
    rw [hr, hd, ht]
    exact hb
  · intro g hg
    obtain ⟨hd, ht, hr⟩ := mem_comorbidityCurve hg
    have hb := subgroup_rate_bounds rows
      (rows.filter (fun r => r.comorbidityCount == g.key)) h
      (fun r hr => (List.mem_filter.mp hr).1)
    rw [hr, hd, ht]
    exact hb
  · unfold kpiMortalityRate
    norm_num

/-- C5: evaluating the pipeline at the failing input, the empty
FilteredView.  Every aggregation except the excess-risk table returns an
empty/zero result and the guarded KPI rate is 0, but the excess-risk block
builds `pd.DataFrame([])` (no columns) and its
`sort_values('Excess Risk (%)')` raises `KeyError` — contradicting the
requirement that every aggregation handles an empty view without raising. -/
theorem emptyView_excessRisk_raises :
    comorbidityAnalysis ([] : List Record) = [] ∧
    comorbidityDFRun ([] : List Record) = Except.error "KeyError" ∧
    ageMortality [] = [] ∧ genderStats [] = [] ∧ comorbidityCurve [] = [] ∧
    patientTypeDist [] = [] ∧ criticalCare [] = (0, 0, 0) ∧
    classificationDist [] = [] ∧ genderData [] = [] ∧
    kpiMortalityRate [] = 0 := by
  refine ⟨by decide, ?_, by decide, by decide, by decide, by decide, by decide,
    by decide, by decide, by decide⟩
  unfold comorbidityDFRun
  rw [if_pos (by decide)]

/-- Bounds witness for `mortality_rate_bounds_spec` on the two-row sample
view. -/
theorem mortality_rate_bounds_witness :
    (∀ r ∈ sampleRows, r.mortality ≤ 1) ∧
    (0 ≤ kpiMortalityRate sampleRows ∧ kpiMortalityRate sampleRows ≤ 100) :=
  ⟨by decide, (mortality_rate_bounds_spec sampleRows (by decide)).1⟩

/-- Concrete instance of the filter invariants on the two-row sample view. -/
theorem applyFilters_spec_witness :
    (applyFilters sampleRows defaultParams).length ≤ sampleRows.length ∧
    List.Sublist (applyFilters sampleRows defaultParams) sampleRows :=
  ⟨(applyFilters_spec sampleRows defaultParams).1,
   (applyFilters_spec sampleRows defaultParams).2.1⟩

/-- Concrete instance of the comorbidity-count bound on the all-absent row. -/
theorem comorbidityCount_spec_witness :
    (decodeRow rawAllAbsent).comorbidityCount ≤ 10 :=
  (comorbidityCount_spec.1 rawAllAbsent).2

/-- Concrete instance of the date/mortality relation on the deceased sample
row. -/
theorem dateDied_mortality_spec_witness :
    (decodeRow rawDeadDiabetic).dateDied = parseDateCoerce rawDeadDiabetic.dateDied :=
  (dateDied_mortality_spec.2.2 rawDeadDiabetic).1

lemma condStat_some {rows : List Record} {nf : String × (Record → Int)} {s : CondStat}
    (h : condStat rows nf = some s) :
    0 < (rows.filter (fun r => nf.2 r == 1)).length ∧
    0 < (rows.filter (fun r => nf.2 r != 1)).length ∧
    s.condition = nf.1 ∧
    s.prevalence =
      ((rows.filter (fun r => nf.2 r == 1)).length : ℚ) / (rows.length : ℚ) * 100 ∧
    s.withMortality =
      rateOf (sumMortality (rows.filter (fun r => nf.2 r == 1)))
        (rows.filter (fun r => nf.2 r == 1)).length ∧
    s.withoutMortality =
      rateOf (sumMortality (rows.filter (fun r => nf.2 r != 1)))
        (rows.filter (fun r => nf.2 r != 1)).length ∧
    s.excessRisk = s.withMortality - s.withoutMortality := by
  unfold condStat at h
  dsimp only at h
  split_ifs at h with hc
  cases Option.some.inj h
  exact ⟨hc.1, hc.2, rfl, rfl, rfl, rfl, rfl⟩

lemma condStat_of_nonempty {rows : List Record} {nf : String × (Record → Int)}
    (h1 : 0 < (rows.filter (fun r => nf.2 r == 1)).length)
    (h2 : 0 < (rows.filter (fun r => nf.2 r != 1)).length) :
    ∃ s : CondStat, condStat rows nf = some s := by
  unfold condStat
  dsimp only
  rw [if_pos ⟨h1, h2⟩]
  exact ⟨_, rfl⟩

lemma mem_comorbidityDF_iff {rows : List Record} {s : CondStat} :
    s ∈ comorbidityDF rows ↔ ∃ nf ∈ conditionList, condStat rows nf = some s := by
  unfold comorbidityDF comorbidityAnalysis
  rw [(List.perm_insertionSort excessGE _).mem_iff]
  exact List.mem_filterMap

/-- C4: the excess-risk table contains one row per comorbidity whose
has-condition (`col == 1`) and lacks-condition (`col != 1`) splits of the
view are both non-empty — conditions with an empty split are omitted; each
row carries `excess_risk = rate_with − rate_without` and
`prevalence = |has| / |view| × 100`; and the table is sorted descending by
excess risk. -/
theorem comorbidityDF_spec (rows : List Record) :
    List.Sorted excessGE (comorbidityDF rows) ∧
    (comorbidityDF rows).Perm (comorbidityAnalysis rows) ∧
    (∀ s ∈ comorbidityDF rows, ∃ nf ∈ conditionList,
      0 < (rows.filter (fun r => nf.2 r == 1)).length ∧
      0 < (rows.filter (fun r => nf.2 r != 1)).length ∧
      s.condition = nf.1 ∧
      s.prevalence =
        ((rows.filter (fun r => nf.2 r == 1)).length : ℚ) / (rows.length : ℚ) * 100 ∧
      s.excessRisk =
        rateOf (sumMortality (rows.filter (fun r => nf.2 r == 1)))
          (rows.filter (fun r => nf.2 r == 1)).length -
        rateOf (sumMortality (rows.filter (fun r => nf.2 r != 1)))
          (rows.filter (fun r => nf.2 r != 1)).length) ∧
    (∀ nf ∈ conditionList,
      0 < (rows.filter (fun r => nf.2 r == 1)).length →
      0 < (rows.filter (fun r => nf.2 r != 1)).length →
      ∃ s ∈ comorbidityDF rows,
        condStat rows nf = some s ∧ s.condition = nf.1) := by
  refine ⟨List.sorted_insertionSort excessGE (comorbidityAnalysis rows),
    List.perm_insertionSort excessGE (comorbidityAnalysis rows), ?_, ?_⟩
  · intro s hs
    obtain ⟨nf, hnf, hcond⟩ := mem_comorbidityDF_iff.mp hs
    obtain ⟨h1, h2, hname, hprev, hwith, hwithout, hexcess⟩ := condStat_some hcond
    exact ⟨nf, hnf, h1, h2, hname, hprev, by rw [hexcess, hwith, hwithout]⟩
  · intro nf hnf h1 h2
    obtain ⟨s, hs⟩ := condStat_of_nonempty h1 h2
    exact ⟨s, mem_comorbidityDF_iff.mpr ⟨nf, hnf, hs⟩, hs, (condStat_some hs).2.2.1⟩

/-- C4 witness: on the two-row sample view both diabetes splits are
non-empty, so a `Diabetes` row appears in the excess-risk table. -/
theorem comorbidityDF_witness :
    (0 < (sampleRows.filter (fun r => r.diabetes == 1)).length ∧
     0 < (sampleRows.filter (fun r => r.diabetes != 1)).length) ∧
    ∃ s ∈ comorbidityDF sampleRows,
      condStat sampleRows ("Diabetes", fun r => r.diabetes) = some s ∧
      s.condition = "Diabetes" :=
  ⟨⟨by decide, by decide⟩,
   (comorbidityDF_spec sampleRows).2.2.2 ("Diabetes", fun r => r.diabetes)
     (by unfold conditionList; exact List.mem_cons_self _ _) (by decide) (by decide)⟩

lemma count_filterMap_eq (f : Record → Option String) (rows : List Record) (l : String) :
    (rows.filterMap f).count l = (rows.filter (fun r => f r == some l)).length := by
  induction rows with
  | nil => simp
  | cons r rs ih =>
    cases h : f r with
    | none => simp [List.filterMap_cons, h, List.filter_cons, ih]
    | some v =>
      by_cases hv : v = l
      · subst hv
        simp [List.filterMap_cons, h, List.filter_cons, List.count_cons, ih]
      · simp [List.filterMap_cons, h, List.filter_cons, List.count_cons, hv, ih,
          Ne.symm hv]

lemma mem_valueCounts {vals : List String} {l : String} {n : Nat} :
    (l, n) ∈ valueCounts vals ↔ l ∈ vals ∧ n = vals.count l := by
  unfold valueCounts
  rw [(List.perm_insertionSort _ _).mem_iff]
  constructor
  · intro h
    obtain ⟨x, hx, heq⟩ := List.mem_map.mp h
    have h1 : x = l := congrArg Prod.fst heq
    have h2 : vals.count x = n := congrArg Prod.snd heq
    subst h1
    exact ⟨List.mem_dedup.mp hx, h2.symm⟩
  · rintro ⟨hl, rfl⟩
    exact List.mem_map.mpr ⟨l, List.mem_dedup.mpr hl, rfl⟩

/-- C8 counterexample: a classification code outside the 7-entry lookup maps
to `NaN`, and `value_counts()` drops `NaN` — so on a one-row dataset whose
code is 8 the classification distribution is empty: no `"Unknown"`/unmapped
bucket appears in the output. -/
theorem classificationDist_cex :
    (decodeRow rawUnmappedClass).classification = none ∧
    classificationDist [decodeRow rawUnmappedClass] = [] :=
  ⟨by decide, by decide⟩

/-- C8 amended: the classification distribution has exactly one count per
mapped classification label present in the view, with the count equal to
the number of rows carrying that label; rows whose raw code is outside the
7-entry lookup get a null label (codes outside 1..7) and are dropped from
the distribution rather than grouped into an `"Unknown"` bucket. -/
theorem classificationDist_spec (rows : List Record) :
    (∀ (l : String) (n : Nat),
      (l, n) ∈ classificationDist rows ↔
        (some l ∈ rows.map (fun r => r.classification) ∧
         n = (rows.filter (fun r => r.classification == some l)).length)) ∧
    (∀ c : Int, classificationMap c = none ↔ ¬(1 ≤ c ∧ c ≤ 7)) := by
  constructor
  · intro l n
    unfold classificationDist
    rw [mem_valueCounts, count_filterMap_eq]
    constructor
    · rintro ⟨hl, rfl⟩
      obtain ⟨r, hr, hf⟩ := List.mem_filterMap.mp hl
      exact ⟨List.mem_map.mpr ⟨r, hr, hf⟩, rfl⟩
    · rintro ⟨hl, rfl⟩
      obtain ⟨r, hr, hf⟩ := List.mem_map.mp hl
      exact ⟨List.mem_filterMap.mpr ⟨r, hr, hf⟩, rfl⟩
  · intro c
    unfold classificationMap
    split_ifs <;> simp_all <;> omega

/-- C9 counterexample: the age-band visualisation block assigns the derived
`AGE_GROUP` column onto `df_filtered` before grouping, so running it does
change the view — the claim that no aggregation mutates its input fails. -/
theorem aggregationMutation_cex :
    (ageMortalityStep sampleFrame).1 ≠ sampleFrame := by
  decide

/-- C9 amended: every aggregation except the age-band one returns its input
view unchanged; the age-band aggregation leaves the view's rows and existing
columns unchanged but adds the derived `AGE_GROUP` column to the view. -/
theorem aggregationFrame_spec (df : Frame) :
    (genderStatsStep df).1 = df ∧
    (comorbidityCurveStep df).1 = df ∧
    (patientTypeDistStep df).1 = df ∧
    (criticalCareStep df).1 = df ∧
    (classificationDistStep df).1 = df ∧
    (comorbidityDFStep df).1 = df ∧
    (ageMortalityStep df).1.rows = df.rows ∧
    (ageMortalityStep df).1.ageGroupCol = some (df.rows.map (fun r => ageBand r.age)) :=
  ⟨rfl, rfl, rfl, rfl, rfl, rfl, rfl, rfl⟩

/-- Concrete instance of the unmapped-code characterisation: code 8 maps to
a null classification label. -/
theorem classificationDist_spec_witness :
    classificationMap 8 = none ↔ ¬(1 ≤ (8 : Int) ∧ (8 : Int) ≤ 7) :=
  (classificationDist_spec []).2 8

/-- Concrete instance of the frame-preservation result on the sample frame. -/
theorem aggregationFrame_spec_witness :
    (genderStatsStep sampleFrame).1 = sampleFrame ∧
    (ageMortalityStep sampleFrame).1.rows = sampleFrame.rows :=
  ⟨(aggregationFrame_spec sampleFrame).1,
   (aggregationFrame_spec sampleFrame).2.2.2.2.2.2.1⟩

lemma valueCounts_key_present {f : Record → Option String} {rows : List Record}
    {e : String × Nat} (he : e ∈ valueCounts (rows.filterMap f)) :
    ∃ r ∈ rows, f r = some e.1 := by
  unfold valueCounts at he
  rw [(List.perm_insertionSort _ _).mem_iff] at he
  obtain ⟨l, hl, rfl⟩ := List.mem_map.mp he
  exact List.mem_filterMap.mp (List.mem_dedup.mp hl)

lemma genderStats_key_present {rows : List Record} {g : GroupStat String}
    (hg : g ∈ genderStats rows) : ∃ r ∈ rows, r.sex = some g.key := by
  unfold genderStats at hg
  obtain ⟨l, hl, rfl⟩ := List.mem_map.mp hg
  unfold sortStrings at hl
  rw [(List.perm_insertionSort _ _).mem_iff] at hl
  exact List.mem_filterMap.mp (List.mem_dedup.mp hl)

lemma sexOptions_mem {rows : List Record} {s : String} (hs : s ∈ sexOptions rows) :
    s = "All" ∨ ∃ r ∈ rows, r.sex = some s := by
  unfold sexOptions at hs
  rcases List.mem_cons.mp hs with rfl | hmem
  · exact Or.inl rfl
  · right
    unfold sortStrings at hmem
    rw [(List.perm_insertionSort _ _).mem_iff] at hmem
    exact List.mem_filterMap.mp (List.mem_dedup.mp hmem)

lemma genderStats_totals_map (rows : List Record) :
    (genderStats rows).map (fun g => g.total) =
      (sortStrings ((rows.filterMap (fun r => r.sex)).dedup)).map
        (fun l => (rows.filter (fun r => r.sex == some l)).length) := by
  unfold genderStats
  rw [List.map_map]
  rfl

lemma sum_genderStats_totals (rows : List Record) :
    ((genderStats rows).map (fun g => g.total)).sum =
      (rows.filterMap (fun r => r.sex)).length := by
  rw [genderStats_totals_map,
    List.map_congr_left
      (fun l _ => (count_filterMap_eq (fun r => r.sex) rows l).symm)]
  unfold sortStrings
  rw [((List.perm_insertionSort _ _).map _).sum_eq]
  exact List.sum_map_count_dedup_eq_length (rows.filterMap (fun r => r.sex))

lemma sum_valueCounts (vals : List String) :
    ((valueCounts vals).map (fun e => e.2)).sum = vals.length := by
  unfold valueCounts
  rw [((List.perm_insertionSort _ _).map _).sum_eq, List.map_map]
  exact List.sum_map_count_dedup_eq_length vals

lemma filterMap_sex_length_lt {rows : List Record} {r0 : Record}
    (h0 : r0 ∈ rows) (hn : r0.sex = none) :
    (rows.filterMap (fun r => r.sex)).length < rows.length := by
  induction rows with
  | nil => cases h0
  | cons r rs ih =>
    rcases List.mem_cons.mp h0 with rfl | hmem
    · rw [List.filterMap_cons, hn]
      simp only [List.length_cons]
      exact Nat.lt_succ_of_le (List.length_filterMap_le _ rs)
    · cases h : r.sex with
      | none =>
        simp only [List.filterMap_cons, h, List.length_cons]
        exact Nat.lt_succ_of_lt (ih hmem)
      | some v =>
        simp only [List.filterMap_cons, h, List.length_cons]
        exact Nat.succ_lt_succ (ih hmem)

/-- C10: a raw sex (or patient-type) code outside `{1, 2, 97}` decodes to a
null label; the corresponding filter, when unrestricted, keeps such a row;
the null label never appears in the filter's option list; such rows are
absent from the gender grouping and from the gender / patient-type count
outputs (every output label comes from an actual non-null row); and when
the view contains a null-sex row the per-gender totals sum to strictly less
than the view's length. -/
theorem unmappedSex_spec (raw : RawRecord) (rows : List Record) (p : FilterParams)
    (hc : raw.sex ≠ 1 ∧ raw.sex ≠ 2 ∧ raw.sex ≠ 97) :
    (decodeRow raw).sex = none ∧
    (∀ c : Int, c ≠ 1 → c ≠ 2 → c ≠ 97 → patientTypeMap c = none) ∧
    (sexActive p = false → filterSex p rows = rows) ∧
    (patientTypeActive p = false → filterPatientType p rows = rows) ∧
    (∀ s ∈ sexOptions rows, s = "All" ∨ ∃ r ∈ rows, r.sex = some s) ∧
    (∀ g ∈ genderStats rows, ∃ r ∈ rows, r.sex = some g.key) ∧
    (∀ e ∈ genderData rows, ∃ r ∈ rows, r.sex = some e.1) ∧
    (∀ e ∈ patientTypeDist rows, ∃ r ∈ rows, r.patientType = some e.1) ∧
    ((genderStats rows).map (fun g => g.total)).sum =
      (rows.filterMap (fun r => r.sex)).length ∧
    (decodeRow raw ∈ rows →
      ((genderStats rows).map (fun g => g.total)).sum < rows.length ∧
      ((genderData rows).map (fun e => e.2)).sum < rows.length) := by
  have hnone : (decodeRow raw).sex = none := by
    simp only [decodeRow]
    unfold sexMap
    rw [if_neg hc.1, if_neg hc.2.1, if_neg hc.2.2]
  refine ⟨hnone, ?_, ?_, ?_, fun s hs => sexOptions_mem hs,
    fun g hg => genderStats_key_present hg,
    fun e he => valueCounts_key_present he,
    fun e he => valueCounts_key_present he,
    sum_genderStats_totals rows, ?_⟩
  · intro c h1 h2 h97
    unfold patientTypeMap
    rw [if_neg h1, if_neg h2, if_neg h97]
  · intro hf
    unfold filterSex
    rw [hf]
    simp
  · intro hf
    unfold filterPatientType
    rw [hf]
    simp
  · intro hmem
    have hlt := filterMap_sex_length_lt hmem hnone
    constructor
    · rw [sum_genderStats_totals rows]
      exact hlt
    · unfold genderData
      rw [sum_valueCounts]
      exact hlt

/-- C10 witness: a two-row view holding one unmapped-sex row and one Male
row has per-gender totals summing to 1 < 2. -/
theorem unmappedSex_witness :
    (rawUnmappedSex.sex ≠ 1 ∧ rawUnmappedSex.sex ≠ 2 ∧ rawUnmappedSex.sex ≠ 97) ∧
    decodeRow rawUnmappedSex ∈ [decodeRow rawUnmappedSex, decodeRow rawAge25] ∧
    ((genderStats [decodeRow rawUnmappedSex, decodeRow rawAge25]).map
        (fun g => g.total)).sum <
      ([decodeRow rawUnmappedSex, decodeRow rawAge25] : List Record).length :=
  ⟨by decide, List.mem_cons_self _ _,
   ((unmappedSex_spec rawUnmappedSex [decodeRow rawUnmappedSex, decodeRow rawAge25]
       defaultParams (by decide)).2.2.2.2.2.2.2.2.2
     (List.mem_cons_self _ _)).1⟩

end CovidDash
